import Mathlib

/-!
Verification development for the FlexFlow serving front-end
(`src/python/flexflow/serve/serve.py`, `src/python/flexflow/serve/models/falcon.py`).

The Python code is shallowly embedded: the filesystem state of one cache
directory is a `CacheState`, the HuggingFace hub and the local filesystem
sources are an opaque environment `HubEnv` of pure functions, and the
side effects of a refresh are recorded as an explicit `CacheEvent` trace.
-/

/- ## Resource cache and revision tracking (serve.py, `LLM.__get_revision_hashes`,
   `LLM.__need_cache_refresh`, `LLM.download_hf_weights_if_needed`) -/

/-- The session fields of the `LLM` object that the cache logic reads:
`self.model_name` and `self.refresh_cache`. -/
structure Session where
  model_name : String
  refresh_cache : Bool
deriving DecidableEq

/-- The external sources of truth consulted by `LLM.__get_revision_hashes`:
whether a model identity resolves to a local directory (`os.path.isdir`),
the directory listing (`os.listdir`, in the order the filesystem returns it),
per-file modification times (`os.path.getmtime`, modelled as naturals since
floats are not shallowly embeddable), the remote commit sha
(`HfApi().model_info(name).sha`), and the digest applied to the local state
list (`hashlib.md5(str(state)).hexdigest()`, modelled as an opaque function
of the state list). -/
structure HubEnv where
  isLocalDir : String → Bool
  localListing : String → List String
  localMtime : String → String → Nat
  remoteSha : String → String
  localDigest : List String → String

/-- The on-disk state of one cache resource directory: whether the directory
exists and the content of its `rev_sha.txt` marker file (`none` when the file
is absent). -/
structure CacheState where
  pathExists : Bool
  marker : Option String
deriving DecidableEq

/-- Reading the marker file: `os.path.exists(ff_revision_filepath)` is false
whenever the containing directory does not exist. -/
def CacheState.readMarker (st : CacheState) : Option String :=
  if st.pathExists then st.marker else none

/-- The `state` list built by `LLM.__get_revision_hashes` for a local model
directory: `files + [os.path.getmtime(os.path.join(model_name, f)) for f in files]`,
with each entry rendered to a string (Python stringifies the whole list before
hashing). The listing is used in the order returned by the filesystem. -/
def localRevisionState (listing : List String) (mtime : String → Nat) : List String :=
  listing ++ listing.map (fun f => toString (mtime f))

/-- The latest revision as `LLM.__get_revision_hashes` computes it. Note the
remote branch reads `self.model_name` (the session's base model), not the
`model_name` argument: `hf_api.model_info(self.model_name).sha`. -/
def codeLatestRevision (env : HubEnv) (sess : Session) (model_name : String) : String :=
  if env.isLocalDir model_name then
    env.localDigest (localRevisionState (env.localListing model_name) (env.localMtime model_name))
  else
    env.remoteSha sess.model_name

/-- `LLM.__get_revision_hashes(model_name, folder)`: the stored revision read
from the folder's `rev_sha.txt` and the latest revision of the source. -/
def get_revision_hashes (env : HubEnv) (sess : Session) (st : CacheState)
    (model_name : String) : Option String × String :=
  (st.readMarker, codeLatestRevision env sess model_name)

/-- Filesystem operations performed during a refresh, in program order, plus
the kind-specific population step run by the caller after
`__need_cache_refresh` returns. -/
inductive CacheEvent
  | removeTree
  | makeDirs
  | writeMarker (rev : String)
  | populate
deriving DecidableEq

/-- `LLM.__need_cache_refresh(model_name, resource_type)`. The resource path
computed by `__get_resource_path(model_name, resource_type)` is externalized:
`st` is the state of that directory. The call
`self.__get_revision_hashes(self.model_name, resource_path)` passes the
session's base model, not the `model_name` argument. Returns the decision,
the new directory state, and the trace of filesystem operations. -/
def need_cache_refresh (env : HubEnv) (sess : Session) (model_name : String)
    (st : CacheState) : Bool × CacheState × List CacheEvent :=
  let r := get_revision_hashes env sess st sess.model_name
  let ff_revision := r.1
  let latest_revision := r.2
  if sess.refresh_cache = true ∨ st.pathExists = false ∨ ff_revision ≠ some latest_revision then
    (true,
     { pathExists := true, marker := some latest_revision },
     (if st.pathExists then [CacheEvent.removeTree] else []) ++
       [CacheEvent.makeDirs, CacheEvent.writeMarker latest_revision])
  else
    (false, st, [])

/-- `LLM.download_hf_weights_if_needed`: runs the refresh check for the
session model's weights and, when a refresh is needed, performs the
population step (`download_and_convert_llm_weights`) afterwards. -/
def download_hf_weights_if_needed (env : HubEnv) (sess : Session)
    (st : CacheState) : CacheState × List CacheEvent :=
  let r := need_cache_refresh env sess sess.model_name st
  if r.1 then (r.2.1, r.2.2 ++ [CacheEvent.populate]) else (r.2.1, r.2.2)

/-- `LLM.download_peft_adapter_if_needed(hf_peft_model_id)`: runs the refresh
check for the adapter identity and populates afterwards when needed. -/
def download_peft_adapter_if_needed (env : HubEnv) (sess : Session)
    (hf_peft_model_id : String) (st : CacheState) : CacheState × List CacheEvent :=
  let r := need_cache_refresh env sess hf_peft_model_id st
  if r.1 then (r.2.1, r.2.2 ++ [CacheEvent.populate]) else (r.2.1, r.2.2)

/-- Modelled from the spec: the refresh predicate as §4.2 states it —
`Refresh iff forceRefresh OR resourcePath does not exist OR stored != latest`
with `latest = RevisionTracker.latestRevision(identity)` computed for the
identity passed to the call (remote branch queries that identity's sha). -/
def specNeedRefresh (env : HubEnv) (sess : Session) (model_name : String)
    (st : CacheState) : Prop :=
  sess.refresh_cache = true ∨ st.pathExists = false ∨
    st.readMarker ≠ some (if env.isLocalDir model_name then
      env.localDigest (localRevisionState (env.localListing model_name) (env.localMtime model_name))
    else env.remoteSha model_name)

instance (env : HubEnv) (sess : Session) (model_name : String) (st : CacheState) :
    Decidable (specNeedRefresh env sess model_name st) := by
  unfold specNeedRefresh; infer_instance

/-- Claim C1: within one refresh (`__need_cache_refresh` followed by its
population callback) the revision marker is written before population runs,
not after it. Evaluated at a concrete failing input (empty cache for a remote
model): the trace ends with `populate`, and the marker write precedes it, so
a population failure leaves a marker pointing at content never fully
written — contradicting the claimed marker-last ordering. -/
theorem marker_written_before_population :
    download_hf_weights_if_needed
      ⟨fun _ => false, fun _ => [], fun _ _ => 0, fun _ => "r1", fun _ => ""⟩
      ⟨"base", false⟩ ⟨false, none⟩ =
      (⟨true, some "r1"⟩,
        [CacheEvent.makeDirs, CacheEvent.writeMarker "r1", CacheEvent.populate]) ∧
    [CacheEvent.makeDirs, CacheEvent.writeMarker "r1", CacheEvent.populate].getLast? =
      some CacheEvent.populate := by
  constructor
  · rfl
  · rfl

/-- Claim C2: at a concrete input, the refresh check for a PEFT adapter
identity compares against the session base model's latest revision, not the
adapter's. Environment: remote-only sources, base model sha `b1`, adapter sha
`a2`; the adapter's cache directory exists and its marker holds `b1` (stamped
by an earlier refresh). The code decides no refresh is needed, while the
spec's predicate (latest revision of the identity passed) requires one. -/
theorem peft_refresh_uses_base_model_revision :
    (need_cache_refresh
      ⟨fun _ => false, fun _ => [], fun _ _ => 0,
        fun n => if n = "base" then "b1" else "a2", fun _ => ""⟩
      ⟨"base", false⟩ "adapter" ⟨true, some "b1"⟩).1 = false ∧
    specNeedRefresh
      ⟨fun _ => false, fun _ => [], fun _ _ => 0,
        fun n => if n = "base" then "b1" else "a2", fun _ => ""⟩
      ⟨"base", false⟩ "adapter" ⟨true, some "b1"⟩ := by
  constructor
  · rfl
  · right; right; decide

/-- Claim C3: with `refresh_cache = false` and an unchanged source, two
consecutive runs of the cache-refresh check perform at most one refresh: the
second run always returns `false`, and the first run refreshes exactly when
the directory is absent or its stored marker differs from the recomputed
latest revision. -/
theorem ensure_fresh_idempotent (env : HubEnv) (sess : Session) (name : String)
    (st : CacheState) (h : sess.refresh_cache = false) :
    (need_cache_refresh env sess name (need_cache_refresh env sess name st).2.1).1 = false ∧
    ((need_cache_refresh env sess name st).1 = true ↔
      (st.pathExists = false ∨
        st.readMarker ≠ some (codeLatestRevision env sess sess.model_name))) := by
  by_cases hc : st.pathExists = false ∨
      st.readMarker ≠ some (codeLatestRevision env sess sess.model_name)
  · constructor
    · simp only [need_cache_refresh, get_revision_hashes, h]
      simp only [Bool.false_eq_true, false_or]
      rw [if_pos hc]
      simp [CacheState.readMarker]
    · simp only [need_cache_refresh, get_revision_hashes, h]
      simp only [Bool.false_eq_true, false_or]
      rw [if_pos hc]
      simpa using hc
  · constructor
    · simp only [need_cache_refresh, get_revision_hashes, h]
      simp only [Bool.false_eq_true, false_or]
      rw [if_neg hc, if_neg hc]
    · simp only [need_cache_refresh, get_revision_hashes, h]
      simp only [Bool.false_eq_true, false_or]
      rw [if_neg hc]
      simpa using hc

/-- Witness for C3 at a concrete input: remote model `base` with sha `b1`,
starting from an empty cache — the first call refreshes, the second does
not. -/
theorem ensure_fresh_idempotent_witness :
    (need_cache_refresh
        ⟨fun _ => false, fun _ => [], fun _ _ => 0, fun _ => "b1", fun _ => ""⟩
        ⟨"base", false⟩ "base"
        (need_cache_refresh
          ⟨fun _ => false, fun _ => [], fun _ _ => 0, fun _ => "b1", fun _ => ""⟩
          ⟨"base", false⟩ "base" ⟨false, none⟩).2.1).1 = false ∧
    ((need_cache_refresh
        ⟨fun _ => false, fun _ => [], fun _ _ => 0, fun _ => "b1", fun _ => ""⟩
        ⟨"base", false⟩ "base" ⟨false, none⟩).1 = true ↔
      ((⟨false, none⟩ : CacheState).pathExists = false ∨
        (⟨false, none⟩ : CacheState).readMarker ≠
          some (codeLatestRevision
            ⟨fun _ => false, fun _ => [], fun _ _ => 0, fun _ => "b1", fun _ => ""⟩
            ⟨"base", false⟩ "base"))) :=
  ensure_fresh_idempotent
    ⟨fun _ => false, fun _ => [], fun _ _ => 0, fun _ => "b1", fun _ => ""⟩
    ⟨"base", false⟩ "base" ⟨false, none⟩ rfl

/-- Claim C4 counterexample: the digest input built by
`LLM.__get_revision_hashes` for a local directory depends on the order in
which the filesystem lists the files. Two listings of byte-identical
directory contents (files `a` and `b`, equal modification times) produce
different state lists, hence different revisions under any injective digest
(here: joining the state list, an injective stand-in composing Python's
`str` with the hex digest). So the revision is not a function of the sorted
file-name list as claimed. -/
theorem local_revision_depends_on_listing_order :
    localRevisionState ["b", "a"] (fun _ => 1) ≠
      localRevisionState ["a", "b"] (fun _ => 1) ∧
    codeLatestRevision
        ⟨fun _ => true, fun _ => ["b", "a"], fun _ _ => 1, fun _ => "",
          fun l => String.intercalate "|" l⟩
        ⟨"dir", false⟩ "dir" ≠
      codeLatestRevision
        ⟨fun _ => true, fun _ => ["a", "b"], fun _ _ => 1, fun _ => "",
          fun l => String.intercalate "|" l⟩
        ⟨"dir", false⟩ "dir" := by
  constructor
  · decide
  · decide

/-- Claim C4 (amended): the local-directory revision is deterministic given
the listing order: it depends only on the file-name list as returned by the
filesystem and the modification times of the listed files — two mtime
functions agreeing on every listed file yield the same digest input. -/
theorem local_revision_deterministic (listing : List String)
    (m1 m2 : String → Nat) (h : ∀ f ∈ listing, m1 f = m2 f) :
    localRevisionState listing m1 = localRevisionState listing m2 := by
  unfold localRevisionState
  congr 1
  exact List.map_congr_left fun f hf => by rw [h f hf]

/-- Witness for the amended C4 at a concrete input. -/
theorem local_revision_deterministic_witness :
    localRevisionState ["a", "b"] (fun f => if f = "a" then 1 else 2) =
      localRevisionState ["a", "b"] (fun f => if f = "b" then 2 else 1) :=
  local_revision_deterministic ["a", "b"]
    (fun f => if f = "a" then 1 else 2) (fun f => if f = "b" then 2 else 1)
    (by decide)

/- ## Request normalization and generation pipeline (serve.py,
   `LLM._generate`, `LLM.__chat2prompt`, `LLM.__output2chat_response`,
   `LLM.generate`) -/

/-- `RequestType` from the engine bindings: the two request kinds
distinguished in `LLM._generate`. -/
inductive RequestType
  | REQ_INFERENCE
  | REQ_FINETUNING
deriving DecidableEq

/-- The `Request` fields read and written by `serve.py`. The
`add_special_tokens` default of `true` is the engine-side default
(the `Request` class lives outside the shown source; chat branches pass
`False` explicitly). -/
structure Request where
  req_type : RequestType
  prompt : String
  max_length : Int
  max_new_tokens : Int
  add_special_tokens : Bool
deriving DecidableEq

/-- `GenerationResult` as used by `serve.py`: only `output_text` is read. -/
structure GenerationResult where
  output_text : String
deriving DecidableEq

/-- Errors raised by the generation path of `serve.py` (each models one
`raise`/failed validation; `assertionFailed` models the length assert in
`__output2chat_response`, `badInputType` the final `assert False` in
`generate`). -/
inductive GenError
  | boundsExceeded
  | maxNewTokensNotAllowed
  | invalidMessage
  | noChatTemplate
  | assertionFailed
  | badInputType
deriving DecidableEq

/-- The per-request bound resolution loop body of `LLM._generate`
(lines 554-581): returns the mutated request and whether the both-set
warning was emitted. -/
def resolveRequest (max_seq_length : Int) (req : Request) :
    Except GenError (Request × Bool) :=
  match req.req_type with
  | RequestType.REQ_INFERENCE =>
    let step : Request × Bool :=
      if req.max_length = -1 ∧ req.max_new_tokens = -1 then
        ({ req with max_length := max_seq_length - 1 }, false)
      else if req.max_length ≠ -1 ∧ req.max_new_tokens ≠ -1 then
        ({ req with max_length := -1 }, true)
      else
        (req, false)
    if step.1.max_length ≥ max_seq_length ∨ step.1.max_new_tokens ≥ max_seq_length then
      Except.error GenError.boundsExceeded
    else
      Except.ok step
  | RequestType.REQ_FINETUNING =>
    if req.max_new_tokens ≠ -1 then
      Except.error GenError.maxNewTokensNotAllowed
    else
      let req := if req.max_length = -1 then { req with max_length := max_seq_length - 1 } else req
      if req.max_length ≥ max_seq_length then
        Except.error GenError.boundsExceeded
      else
        Except.ok (req, false)

/-- The resolution loop of `LLM._generate` over the whole request list,
stopping at the first raised error. -/
def resolveRequests (max_seq_length : Int) : List Request →
    Except GenError (List (Request × Bool))
  | [] => Except.ok []
  | r :: rs =>
    match resolveRequest max_seq_length r with
    | Except.error e => Except.error e
    | Except.ok rb =>
      match resolveRequests max_seq_length rs with
      | Except.error e => Except.error e
      | Except.ok rest => Except.ok (rb :: rest)

/-- Observable outcome of one successful `LLM._generate` call: the mutated
request list handed to the engine, the engine results, the number of engine
batch calls, and the number of warnings surfaced. -/
structure GenTrace where
  requests : List Request
  results : List GenerationResult
  engineCalls : Nat
  warnings : Nat
deriving DecidableEq

/-- `LLM._generate(requests)`: empty input short-circuits without engine
dispatch; otherwise every request is bound-resolved in place and the whole
batch is submitted to the engine (`self.model.ffmodel.generate`, an opaque
collaborator passed as `engine`) in one call. -/
def llmGenerate (engine : List Request → List GenerationResult)
    (max_seq_length : Int) (requests : List Request) : Except GenError GenTrace :=
  if requests.length = 0 then
    Except.ok ⟨[], [], 0, 0⟩
  else
    match resolveRequests max_seq_length requests with
    | Except.error e => Except.error e
    | Except.ok rws =>
      let resolved := rws.map Prod.fst
      Except.ok ⟨resolved, engine resolved, 1, (rws.filter (fun rw => rw.2)).length⟩

/-- A chat message as `LLM.__chat2prompt` sees it: a Python dict from string
keys to values (only the presence of the `role`/`content` keys is
inspected). -/
abbrev ChatMessage := List (String × String)

/-- Membership test for a dict key. -/
def ChatMessage.hasKey (m : ChatMessage) (k : String) : Bool :=
  m.any (fun kv => kv.1 = k)

/-- One element of a Python list passed to `LLM.generate`: a string, a dict,
a list of dicts, a `Request`, or a value of any other type (`other` models
e.g. an integer — none of the types the dispatch chain recognizes). -/
inductive PromptElem
  | str (s : String)
  | dict (m : ChatMessage)
  | list (msgs : List ChatMessage)
  | request (r : Request)
  | other
deriving DecidableEq

/-- The prompt value the list-of-strings branch of `LLM.generate` stores for
an element (Python would store a non-string value unchanged; only the string
case occurs in type-correct calls). -/
def PromptElem.promptString : PromptElem → String
  | PromptElem.str s => s
  | _ => ""

/-- The request the list-of-Requests branch of `LLM.generate` passes through
for an element (Python forwards non-Request elements unchecked; only the
Request case occurs in type-correct calls). -/
def PromptElem.asRequest : PromptElem → Request
  | PromptElem.request r => r
  | _ => ⟨RequestType.REQ_INFERENCE, "", -1, -1, true⟩

/-- The message validation loop of `LLM.__chat2prompt`: the element must be
a dict carrying both the `role` and the `content` key. -/
def elemAsMessage : PromptElem → Option ChatMessage
  | PromptElem.dict m =>
    if m.hasKey "role" ∧ m.hasKey "content" then some m else none
  | _ => none

/-- Validation of all messages in order, stopping at the first malformed
one (the `for message in messages` loop of `LLM.__chat2prompt`). -/
def collectMessages : List PromptElem → Option (List ChatMessage)
  | [] => some []
  | e :: rest =>
    match elemAsMessage e with
    | none => none
    | some m =>
      match collectMessages rest with
      | none => none
      | some ms => some (m :: ms)

/-- `LLM.__chat2prompt(messages)`: validate every message, then require a
chat template and render the messages to a single prompt string. The
template renderer (`tokenizer.apply_chat_template`) is an opaque
collaborator `render`; `hasTemplate` models `tokenizer.chat_template is not
None`. -/
def chat2prompt (render : List ChatMessage → String) (hasTemplate : Bool)
    (elems : List PromptElem) : Except GenError String :=
  match collectMessages elems with
  | none => Except.error GenError.invalidMessage
  | some msgs =>
    if hasTemplate then Except.ok (render msgs)
    else Except.error GenError.noChatTemplate

/-- The list comprehension of the multi-turn batch branch of `LLM.generate`:
render each element (which must itself be a list of messages) in order,
propagating the first error. A non-list element fails inside
`__chat2prompt`. -/
def renderAll (render : List ChatMessage → String) (hasTemplate : Bool) :
    List PromptElem → Except GenError (List String)
  | [] => Except.ok []
  | e :: rest =>
    match e with
    | PromptElem.list msgs =>
      match chat2prompt render hasTemplate (msgs.map PromptElem.dict) with
      | Except.error err => Except.error err
      | Except.ok p =>
        match renderAll render hasTemplate rest with
        | Except.error err => Except.error err
        | Except.ok ps => Except.ok (p :: ps)
    | _ => Except.error GenError.invalidMessage

/-- `LLM.__output2chat_response(requests, outputs)`: strip the leading
echoed prompt from each output, pairing positionally. -/
def output2chat_response (requests : List Request)
    (outputs : List GenerationResult) : List GenerationResult :=
  List.zipWith (fun r o => ⟨o.output_text.drop r.prompt.length⟩) requests outputs

/-- The dynamic input union accepted by `LLM.generate`: a string, a
`Request`, a list, or a value of any other type (which trips the final
`assert False`). -/
inductive GenInput
  | str (s : String)
  | request (r : Request)
  | list (elems : List PromptElem)
  | other
deriving DecidableEq

/-- Return value of `LLM.generate`: `value = none` models Python returning
`None` (falling off the end of the dispatch chain); `some results` a result
list. Engine batch calls and warnings are carried through from
`_generate`. -/
structure GenReturn where
  value : Option (List GenerationResult)
  engineCalls : Nat
  warnings : Nat
deriving DecidableEq

/-- `LLM.generate(requests_or_prompts, max_length, max_new_tokens)`:
type-dispatch on the input, and on the first element for list inputs
(lines 637-696). -/
def generate (engine : List Request → List GenerationResult)
    (render : List ChatMessage → String) (hasTemplate : Bool)
    (max_seq_length : Int) (input : GenInput)
    (max_length : Int) (max_new_tokens : Int) : Except GenError GenReturn :=
  match input with
  | GenInput.str s =>
    if s.length = 0 then Except.ok ⟨some [], 0, 0⟩
    else
      match llmGenerate engine max_seq_length
          [⟨RequestType.REQ_INFERENCE, s, max_length, max_new_tokens, true⟩] with
      | Except.error e => Except.error e
      | Except.ok tr => Except.ok ⟨some tr.results, tr.engineCalls, tr.warnings⟩
  | GenInput.request r =>
    match llmGenerate engine max_seq_length [r] with
    | Except.error e => Except.error e
    | Except.ok tr => Except.ok ⟨some tr.results, tr.engineCalls, tr.warnings⟩
  | GenInput.list elems =>
    match elems with
    | [] => Except.ok ⟨some [], 0, 0⟩
    | e :: _ =>
      match e with
      | PromptElem.str _ =>
        let requests := elems.map (fun el =>
          (⟨RequestType.REQ_INFERENCE, el.promptString, max_length, max_new_tokens, true⟩ : Request))
        match llmGenerate engine max_seq_length requests with
        | Except.error err => Except.error err
        | Except.ok tr => Except.ok ⟨some tr.results, tr.engineCalls, tr.warnings⟩
      | PromptElem.dict _ =>
        match chat2prompt render hasTemplate elems with
        | Except.error err => Except.error err
        | Except.ok prompt =>
          match llmGenerate engine max_seq_length
              [⟨RequestType.REQ_INFERENCE, prompt, max_length, max_new_tokens, false⟩] with
          | Except.error err => Except.error err
          | Except.ok tr =>
            if tr.requests.length = tr.results.length then
              Except.ok ⟨some (output2chat_response tr.requests tr.results),
                tr.engineCalls, tr.warnings⟩
            else Except.error GenError.assertionFailed
      | PromptElem.list _ =>
        match renderAll render hasTemplate elems with
        | Except.error err => Except.error err
        | Except.ok prompts =>
          let requests := prompts.map (fun p =>
            (⟨RequestType.REQ_INFERENCE, p, max_length, max_new_tokens, false⟩ : Request))
          match llmGenerate engine max_seq_length requests with
          | Except.error err => Except.error err
          | Except.ok tr =>
            if tr.requests.length = tr.results.length then
              Except.ok ⟨some (output2chat_response tr.requests tr.results),
                tr.engineCalls, tr.warnings⟩
            else Except.error GenError.assertionFailed
      | PromptElem.request _ =>
        match llmGenerate engine max_seq_length (elems.map PromptElem.asRequest) with
        | Except.error err => Except.error err
        | Except.ok tr => Except.ok ⟨some tr.results, tr.engineCalls, tr.warnings⟩
      | PromptElem.other => Except.ok ⟨none, 0, 0⟩
  | GenInput.other => Except.error GenError.badInputType

/-- Claim C5: an inference request submitted to `_generate` with both
`max_length` and `max_new_tokens` set keeps `max_new_tokens`, has
`max_length` forced back to `-1`, and surfaces a warning; the both-set
branch itself raises nothing — the call proceeds and dispatches one engine
batch (given `max_new_tokens` within the sequence bound). -/
theorem both_bounds_set_resolution (engine : List Request → List GenerationResult)
    (max_seq_length : Int) (req : Request)
    (hinf : req.req_type = RequestType.REQ_INFERENCE)
    (hml : req.max_length ≠ -1) (hmnt : req.max_new_tokens ≠ -1)
    (hpos : -1 < max_seq_length) (hbound : req.max_new_tokens < max_seq_length) :
    resolveRequest max_seq_length req =
      Except.ok ({ req with max_length := -1 }, true) ∧
    llmGenerate engine max_seq_length [req] =
      Except.ok ⟨[{ req with max_length := -1 }],
        engine [{ req with max_length := -1 }], 1, 1⟩ := by
  have hres : resolveRequest max_seq_length req =
      Except.ok ({ req with max_length := -1 }, true) := by
    obtain ⟨ty, p, ml, mnt, ast⟩ := req
    simp only [Request.req_type] at hinf
    simp only [Request.max_length, Request.max_new_tokens] at hml hmnt hbound
    subst hinf
    have h1 : ¬(ml = -1 ∧ mnt = -1) := fun hcon => hml hcon.1
    have h2 : ml ≠ -1 ∧ mnt ≠ -1 := ⟨hml, hmnt⟩
    simp only [resolveRequest, if_neg h1, if_pos h2]
    rw [if_neg (by push_neg; exact ⟨hpos, hbound⟩)]
  refine ⟨hres, ?_⟩
  unfold llmGenerate
  rw [if_neg (by simp)]
  unfold resolveRequests
  rw [hres]
  simp [resolveRequests, List.filter]

/-- Witness for C5 at a concrete input. -/
theorem both_bounds_set_resolution_witness :
    resolveRequest 256 (⟨RequestType.REQ_INFERENCE, "p", 10, 20, true⟩ : Request) =
      Except.ok ({ (⟨RequestType.REQ_INFERENCE, "p", 10, 20, true⟩ : Request) with
        max_length := -1 }, true) ∧
    llmGenerate (fun rs => rs.map (fun r => ⟨r.prompt⟩)) 256
        [⟨RequestType.REQ_INFERENCE, "p", 10, 20, true⟩] =
      Except.ok ⟨[{ (⟨RequestType.REQ_INFERENCE, "p", 10, 20, true⟩ : Request) with
          max_length := -1 }],
        (fun (rs : List Request) => rs.map (fun r => (⟨r.prompt⟩ : GenerationResult)))
          [{ (⟨RequestType.REQ_INFERENCE, "p", 10, 20, true⟩ : Request) with
            max_length := -1 }], 1, 1⟩ :=
  both_bounds_set_resolution (fun rs => rs.map (fun r => ⟨r.prompt⟩)) 256
    ⟨RequestType.REQ_INFERENCE, "p", 10, 20, true⟩
    rfl (by decide) (by decide) (by decide) (by decide)

/-- Claim C6: `generate` on the list `["hello", "world"]` with
`max_seq_length = 256` and both bounds unset builds exactly two inference
requests, in input order, each resolved to `max_length = 255`, and submits
them to the engine in one batch with no warning. -/
theorem normalize_two_strings (engine : List Request → List GenerationResult)
    (render : List ChatMessage → String) (hasTemplate : Bool) :
    ∃ rs : List Request,
      generate engine render hasTemplate 256
          (GenInput.list [PromptElem.str "hello", PromptElem.str "world"]) (-1) (-1) =
        Except.ok ⟨some (engine rs), 1, 0⟩ ∧
      llmGenerate engine 256
          [⟨RequestType.REQ_INFERENCE, "hello", -1, -1, true⟩,
           ⟨RequestType.REQ_INFERENCE, "world", -1, -1, true⟩] =
        Except.ok ⟨rs, engine rs, 1, 0⟩ ∧
      rs.map Request.prompt = ["hello", "world"] ∧
      rs.map Request.req_type = [RequestType.REQ_INFERENCE, RequestType.REQ_INFERENCE] ∧
      rs.map Request.max_length = [255, 255] ∧
      rs.map Request.max_new_tokens = [-1, -1] := by
  refine ⟨[⟨RequestType.REQ_INFERENCE, "hello", 255, -1, true⟩,
           ⟨RequestType.REQ_INFERENCE, "world", 255, -1, true⟩], ?_, ?_, rfl, rfl, rfl, rfl⟩
  · rfl
  · rfl

/-- Claim C10: a non-empty list whose first element is of an unrecognized
type (not a string, dict, list, or Request — e.g. an integer) makes
`generate` fall off the end of the dispatch chain: it returns Python `None`
(not a result list, not an exception) with zero engine batch calls,
whatever the rest of the list contains — the dispatch looks only at the
first element. -/
theorem generate_unrecognized_first_element
    (engine : List Request → List GenerationResult)
    (render : List ChatMessage → String) (hasTemplate : Bool)
    (max_seq_length max_length max_new_tokens : Int) (rest : List PromptElem) :
    generate engine render hasTemplate max_seq_length
      (GenInput.list (PromptElem.other :: rest)) max_length max_new_tokens =
      Except.ok ⟨none, 0, 0⟩ :=
  rfl

/-- Helper: message validation succeeds on a list of dicts that all carry
the `role` and `content` keys, returning the dicts unchanged. -/
theorem collectMessages_map_dict (msgs : List ChatMessage)
    (h : ∀ m ∈ msgs, ChatMessage.hasKey m "role" = true ∧
      ChatMessage.hasKey m "content" = true) :
    collectMessages (msgs.map PromptElem.dict) = some msgs := by
  induction msgs with
  | nil => rfl
  | cons m mrest ih =>
    have hm := h m (List.mem_cons_self m mrest)
    simp only [List.map_cons, collectMessages, elemAsMessage]
    rw [if_pos ⟨hm.1, hm.2⟩]
    rw [ih (fun x hx => h x (List.mem_cons_of_mem m hx))]

/-- Helper: bound resolution of an inference request with both bounds unset
defaults `max_length` to `max_seq_length - 1` with no warning. -/
theorem resolveRequest_unset (max_seq_length : Int) (req : Request)
    (hpos : 0 ≤ max_seq_length)
    (hty : req.req_type = RequestType.REQ_INFERENCE)
    (hml : req.max_length = -1) (hmnt : req.max_new_tokens = -1) :
    resolveRequest max_seq_length req =
      Except.ok ({ req with max_length := max_seq_length - 1 }, false) := by
  obtain ⟨ty, p, ml, mnt, ast⟩ := req
  simp only [Request.req_type] at hty
  simp only [Request.max_length, Request.max_new_tokens] at hml hmnt
  subst hty; subst hml; subst hmnt
  have h1 : ¬(max_seq_length - 1 ≥ max_seq_length) := by omega
  have h2 : ¬((-1 : Int) ≥ max_seq_length) := by omega
  simp [resolveRequest, h1, h2]

/-- Helper: the resolution loop on a batch of inference requests with both
bounds unset defaults every `max_length` and emits no warning. -/
theorem resolveRequests_unset (max_seq_length : Int) (requests : List Request)
    (hpos : 0 ≤ max_seq_length)
    (h : ∀ r ∈ requests, r.req_type = RequestType.REQ_INFERENCE ∧
      r.max_length = -1 ∧ r.max_new_tokens = -1) :
    resolveRequests max_seq_length requests =
      Except.ok (requests.map (fun r => ({ r with max_length := max_seq_length - 1 }, false))) := by
  induction requests with
  | nil => rfl
  | cons r rest ih =>
    have hr := h r (List.mem_cons_self r rest)
    simp only [resolveRequests]
    rw [resolveRequest_unset max_seq_length r hpos hr.1 hr.2.1 hr.2.2]
    rw [ih (fun x hx => h x (List.mem_cons_of_mem r hx))]
    rfl

/-- Helper: filtering the warning column of a batch that warned nowhere
yields the empty list. -/
theorem filter_snd_false {α β : Type} (g : α → β) (l : List α) :
    (l.map (fun r => (g r, false))).filter (fun rw => rw.2) = [] := by
  induction l with
  | nil => rfl
  | cons r rest ih => simp [ih]

/-- Helper: `_generate` on a non-empty batch of inference requests with both
bounds unset resolves every request and dispatches the batch once with no
warnings. -/
theorem llmGenerate_unset (engine : List Request → List GenerationResult)
    (max_seq_length : Int) (requests : List Request)
    (hpos : 0 ≤ max_seq_length) (hne : requests ≠ [])
    (h : ∀ r ∈ requests, r.req_type = RequestType.REQ_INFERENCE ∧
      r.max_length = -1 ∧ r.max_new_tokens = -1) :
    llmGenerate engine max_seq_length requests =
      Except.ok ⟨requests.map (fun r => { r with max_length := max_seq_length - 1 }),
        engine (requests.map (fun r => { r with max_length := max_seq_length - 1 })),
        1, 0⟩ := by
  unfold llmGenerate
  rw [if_neg (by simpa using hne)]
  rw [resolveRequests_unset max_seq_length requests hpos h]
  simp only [List.map_map]
  rw [filter_snd_false]
  rfl

/-- Helper: rendering a batch of message lists, all of whose messages carry
the required keys, succeeds and renders each list in order. -/
theorem renderAll_map_list (render : List ChatMessage → String)
    (batch : List (List ChatMessage))
    (h : ∀ msgs ∈ batch, ∀ m ∈ msgs, ChatMessage.hasKey m "role" = true ∧
      ChatMessage.hasKey m "content" = true) :
    renderAll render true (batch.map PromptElem.list) =
      Except.ok (batch.map render) := by
  induction batch with
  | nil => rfl
  | cons msgs brest ih =>
    simp only [List.map_cons, renderAll, chat2prompt]
    rw [collectMessages_map_dict msgs (h msgs (List.mem_cons_self msgs brest))]
    simp only [if_pos rfl]
    rw [ih (fun x hx => h x (List.mem_cons_of_mem msgs hx))]
    rfl


/-- Helper: stripping via the requests built from a list of prompts equals
stripping via the prompts themselves. -/
theorem output2chat_by_prompts (ps : List String) (ml mnt : Int)
    (outs : List GenerationResult) :
    output2chat_response
        (ps.map (fun p => (⟨RequestType.REQ_INFERENCE, p, ml, mnt, false⟩ : Request)))
        outs =
      List.zipWith (fun p o => ⟨o.output_text.drop p.length⟩) ps outs := by
  unfold output2chat_response
  rw [List.zipWith_map_left]

/-- Claim C7: for chat-shaped calls — a list of role/content message dicts,
or a list of such lists — each returned result is the engine's output with
its first `len(p)` characters removed, where `p` is the prompt rendered by
the chat template (the requests submitted to the engine carry exactly the
rendered prompts, one per chat, so the single-message input produces exactly
one such request). -/
theorem chat_output_strips_rendered_prompt
    (engine : List Request → List GenerationResult)
    (render : List ChatMessage → String) (max_seq_length : Int)
    (hpos : 0 ≤ max_seq_length)
    (hlen : ∀ rs, (engine rs).length = rs.length)
    (msgs : List ChatMessage) (hne : msgs ≠ [])
    (hvalid : ∀ m ∈ msgs, ChatMessage.hasKey m "role" = true ∧
      ChatMessage.hasKey m "content" = true)
    (batch : List (List ChatMessage)) (hbne : batch ≠ [])
    (hbvalid : ∀ ms ∈ batch, ∀ m ∈ ms, ChatMessage.hasKey m "role" = true ∧
      ChatMessage.hasKey m "content" = true) :
    (∃ req : Request, req.prompt = render msgs ∧
      generate engine render true max_seq_length
          (GenInput.list (msgs.map PromptElem.dict)) (-1) (-1) =
        Except.ok ⟨some ((engine [req]).map
          (fun o => ⟨o.output_text.drop (render msgs).length⟩)), 1, 0⟩) ∧
    (∃ reqs : List Request, reqs.map Request.prompt = batch.map render ∧
      generate engine render true max_seq_length
          (GenInput.list (batch.map PromptElem.list)) (-1) (-1) =
        Except.ok ⟨some (List.zipWith
          (fun p o => ⟨o.output_text.drop p.length⟩) (batch.map render) (engine reqs)),
          1, 0⟩) := by
  constructor
  · obtain ⟨m, mrest, rfl⟩ : ∃ m mrest, msgs = m :: mrest := by
      cases msgs with
      | nil => exact absurd rfl hne
      | cons m mrest => exact ⟨m, mrest, rfl⟩
    refine ⟨⟨RequestType.REQ_INFERENCE, render (m :: mrest), max_seq_length - 1, -1, false⟩,
      rfl, ?_⟩
    have hcm := collectMessages_map_dict (m :: mrest) hvalid
    rw [List.map_cons] at hcm
    have hchat : chat2prompt render true
        (PromptElem.dict m :: List.map PromptElem.dict mrest) =
        Except.ok (render (m :: mrest)) := by
      unfold chat2prompt
      rw [hcm]
      rfl
    have hllm := llmGenerate_unset engine max_seq_length
      [⟨RequestType.REQ_INFERENCE, render (m :: mrest), -1, -1, false⟩] hpos
      (by simp)
      (by
        intro r hr
        simp only [List.mem_singleton] at hr
        subst hr
        exact ⟨rfl, rfl, rfl⟩)
    obtain ⟨o, ho⟩ : ∃ o, engine
        [⟨RequestType.REQ_INFERENCE, render (m :: mrest), max_seq_length - 1, -1, false⟩] =
        [o] := List.length_eq_one.mp (by rw [hlen]; rfl)
    simp only [List.map_cons, generate]
    rw [hchat]
    dsimp only
    rw [hllm]
    dsimp only [List.map_cons, List.map_nil]
    rw [ho]
    simp [output2chat_response]
  · obtain ⟨b, brest, rfl⟩ : ∃ b brest, batch = b :: brest := by
      cases batch with
      | nil => exact absurd rfl hbne
      | cons b brest => exact ⟨b, brest, rfl⟩
    refine ⟨(List.map render (b :: brest)).map
      (fun p => (⟨RequestType.REQ_INFERENCE, p, max_seq_length - 1, -1, false⟩ : Request)),
      by simp, ?_⟩
    have hrender := renderAll_map_list render (b :: brest) hbvalid
    rw [List.map_cons] at hrender
    have hllm := llmGenerate_unset engine max_seq_length
      ((List.map render (b :: brest)).map
        (fun p => (⟨RequestType.REQ_INFERENCE, p, -1, -1, false⟩ : Request))) hpos
      (by simp)
      (by
        intro r hr
        obtain ⟨p, hp, rfl⟩ := List.mem_map.mp hr
        exact ⟨rfl, rfl, rfl⟩)
    simp only [List.map_cons, generate]
    rw [List.map_cons] at hrender
    rw [hrender]
    dsimp only
    rw [show (List.map
        (fun p => (⟨RequestType.REQ_INFERENCE, p, -1, -1, false⟩ : Request))
        (render b :: List.map render brest)) =
      ((List.map render (b :: brest)).map
        (fun p => (⟨RequestType.REQ_INFERENCE, p, -1, -1, false⟩ : Request))) from by
      simp]
    rw [hllm]
    dsimp only
    rw [if_pos (by rw [hlen])]
    rw [List.map_map]
    rw [show (List.map
        ((fun r => ({ r with max_length := max_seq_length - 1 } : Request)) ∘
          (fun p => (⟨RequestType.REQ_INFERENCE, p, -1, -1, false⟩ : Request)))
        (List.map render (b :: brest))) =
      ((List.map render (b :: brest)).map
        (fun p => (⟨RequestType.REQ_INFERENCE, p, max_seq_length - 1, -1, false⟩ : Request)))
      from rfl]
    rw [output2chat_by_prompts]
    rw [List.map_cons]
    rfl

/-- A concrete engine for witnesses: echoes each prompt with a suffix,
producing one result per request. -/
def wEngine : List Request → List GenerationResult :=
  fun rs => rs.map (fun r => ⟨r.prompt ++ "!"⟩)

/-- A concrete chat-template renderer for witnesses: concatenates all
message values. -/
def wRender : List ChatMessage → String :=
  fun ms => String.join (ms.map (fun m => String.join (m.map Prod.snd)))

/-- Witness for C7 at the single-message chat input
`[{"role": "user", "content": "hi"}]` and its one-element batch variant. -/
theorem chat_output_strips_rendered_prompt_witness :
    (∀ rs, (wEngine rs).length = rs.length) ∧
    ((∃ req : Request, req.prompt = wRender [[("role", "user"), ("content", "hi")]] ∧
      generate wEngine wRender true 256
          (GenInput.list (([[("role", "user"), ("content", "hi")]] :
            List ChatMessage).map PromptElem.dict)) (-1) (-1) =
        Except.ok ⟨some ((wEngine [req]).map
          (fun o => ⟨o.output_text.drop
            (wRender [[("role", "user"), ("content", "hi")]]).length⟩)), 1, 0⟩) ∧
     (∃ reqs : List Request, reqs.map Request.prompt =
        ([[[("role", "user"), ("content", "hi")]]] : List (List ChatMessage)).map wRender ∧
      generate wEngine wRender true 256
          (GenInput.list (([[[("role", "user"), ("content", "hi")]]] :
            List (List ChatMessage)).map PromptElem.list)) (-1) (-1) =
        Except.ok ⟨some (List.zipWith (fun p o => ⟨o.output_text.drop p.length⟩)
          (([[[("role", "user"), ("content", "hi")]]] :
            List (List ChatMessage)).map wRender) (wEngine reqs)), 1, 0⟩)) :=
  ⟨fun rs => by simp [wEngine],
   chat_output_strips_rendered_prompt wEngine wRender 256 (by decide)
     (fun rs => by simp [wEngine])
     [[("role", "user"), ("content", "hi")]] (by decide) (by decide)
     [[[("role", "user"), ("content", "hi")]]] (by decide) (by decide)⟩

/- ## PEFT adapter registration (serve.py, `LLM.register_peft_adapter`) -/

/-- The fields of `LoraLinearConfig` that `LLM.register_peft_adapter`
inspects or forwards into a synthesized `LoraConfig` (numeric
hyperparameters are carried opaquely; the float `lora_dropout` is not
modelled). -/
structure LoraLinearConfig where
  peft_model_id : String
  trainable : Bool
  init_lora_weights : Bool
  rank : Nat
  target_modules : List String
  lora_alpha : Nat
deriving DecidableEq

/-- The fields of a HuggingFace `PeftConfig` that `register_peft_adapter`
checks: the adapter type string and the declared base model
(`none` models a config dict without the `base_model_name_or_path` key). -/
structure PeftConfig where
  peft_type : String
  base_model_name_or_path : Option String
deriving DecidableEq

/-- Errors raised by `register_peft_adapter`, in source order. -/
inductive PeftError
  | emptyPeftModelId
  | unsupportedPeftType (t : String)
  | missingBaseModel
  | baseModelMismatch (base : String)
deriving DecidableEq

/-- State owned by the session that registration mutates: the `self.pefts`
registry (a dict keyed by the whole `LoraLinearConfig`) and the number of
engine compile/registration steps performed
(`lora_config.ff_compile()` followed by
`self.model.ffmodel.register_peft_adapter(lora_config)`). -/
structure RegState where
  pefts : List (LoraLinearConfig × PeftConfig)
  engine_compiles : Nat
deriving DecidableEq

/-- Dict assignment `self.pefts[lora_config] = ...`: replaces any previous
binding of the same key. -/
def updatePefts (k : LoraLinearConfig) (v : PeftConfig)
    (l : List (LoraLinearConfig × PeftConfig)) : List (LoraLinearConfig × PeftConfig) :=
  (k, v) :: l.filter (fun kv => decide (kv.1 ≠ k))

/-- `LLM.register_peft_adapter(lora_config)`: validate the adapter id, fetch
the adapter's own config from its source of truth
(`PeftConfig.from_pretrained`, the opaque `fetchConfig`) when the adapter is
not trainable or does not request fresh-weight initialization, otherwise
synthesize a LoRA config bound to this session's model; then check the
adapter type, the presence of a declared base model, and its equality with
the session model, raising on the first failure (a raise leaves the registry
untouched and performs no engine compile). -/
def register_peft_adapter (model_name : String)
    (fetchConfig : String → PeftConfig) (lora_config : LoraLinearConfig)
    (st : RegState) : RegState × Option PeftError :=
  if lora_config.peft_model_id.length = 0 then
    (st, some PeftError.emptyPeftModelId)
  else
    let peft_config :=
      if lora_config.trainable = false ∨ lora_config.init_lora_weights = false then
        fetchConfig lora_config.peft_model_id
      else
        { peft_type := "LORA", base_model_name_or_path := some model_name }
    if peft_config.peft_type ≠ "LORA" then
      (st, some (PeftError.unsupportedPeftType peft_config.peft_type))
    else
      match peft_config.base_model_name_or_path with
      | none => (st, some PeftError.missingBaseModel)
      | some base =>
        if base ≠ model_name then
          (st, some (PeftError.baseModelMismatch base))
        else
          ({ pefts := updatePefts lora_config peft_config st.pefts,
             engine_compiles := st.engine_compiles + 1 }, none)

/-- Claim C8 counterexample: an adapter on the fetched-config path whose
declared base model (`other/model`) differs from the session model
(`base/model`) but whose fetched type is not LoRA fails with the
unsupported-type error, not the base-model-mismatch error, so the claim
that such configurations always fail with a base-model-mismatch error is
false (the no-partial-registration half does hold here: registry unchanged,
no engine compile). -/
theorem peft_mismatch_not_always_mismatch_error :
    register_peft_adapter "base/model"
        (fun _ => ⟨"ADALORA", some "other/model"⟩)
        ⟨"some/adapter", false, true, 8, ["down_proj"], 16⟩ ⟨[], 0⟩ =
      (⟨[], 0⟩, some (PeftError.unsupportedPeftType "ADALORA")) ∧
    some (PeftError.unsupportedPeftType "ADALORA") ≠
      some (PeftError.baseModelMismatch "other/model") ∧
    ((fun _ => (⟨"ADALORA", some "other/model"⟩ : PeftConfig)) "some/adapter").base_model_name_or_path =
      some "other/model" ∧
    "other/model" ≠ "base/model" := by
  refine ⟨rfl, by decide, rfl, by decide⟩

/-- Claim C8 (amended): on the fetched-config path, a declared base model
different from the session's always makes registration fail before any
mutation — the registry is unchanged, no engine compile happens — and the
error is the base-model-mismatch error whenever the adapter id is non-empty,
the fetched type is the supported LoRA kind, and the base-model field is
present (otherwise it is the corresponding earlier validation error). -/
theorem peft_mismatch_rejected (model_name : String)
    (fetchConfig : String → PeftConfig) (lora_config : LoraLinearConfig)
    (st : RegState)
    (hpath : lora_config.trainable = false ∨ lora_config.init_lora_weights = false)
    (hne : (fetchConfig lora_config.peft_model_id).base_model_name_or_path ≠
      some model_name) :
    (register_peft_adapter model_name fetchConfig lora_config st).1 = st ∧
    (register_peft_adapter model_name fetchConfig lora_config st).2.isSome = true ∧
    (lora_config.peft_model_id.length ≠ 0 →
      (fetchConfig lora_config.peft_model_id).peft_type = "LORA" →
      ∀ base, (fetchConfig lora_config.peft_model_id).base_model_name_or_path = some base →
        (register_peft_adapter model_name fetchConfig lora_config st).2 =
          some (PeftError.baseModelMismatch base)) := by
  unfold register_peft_adapter
  by_cases hid : lora_config.peft_model_id.length = 0
  · rw [if_pos hid]
    exact ⟨rfl, rfl, fun h => absurd hid h⟩
  · rw [if_neg hid]
    rw [if_pos hpath]
    by_cases hty : (fetchConfig lora_config.peft_model_id).peft_type = "LORA"
    · rw [if_neg (by simpa using hty)]
      cases hbase : (fetchConfig lora_config.peft_model_id).base_model_name_or_path with
      | none =>
        refine ⟨rfl, rfl, fun _ _ base hb => ?_⟩
        exact absurd hb (by simp)
      | some base =>
        have hbm : base ≠ model_name := by
          intro hcon
          exact hne (by rw [hbase, hcon])
        refine ⟨by simp [hbm], by simp [hbm], fun _ _ base2 hb => ?_⟩
        have hb2 : base = base2 := by simpa using hb
        subst hb2
        simp [hbm]
    · rw [if_pos (by simpa using hty)]
      exact ⟨rfl, rfl, fun _ h => absurd h hty⟩

/-- Witness for the amended C8 at a concrete input: a well-formed LoRA
config on the fetched path whose declared base differs from the session
model is rejected with the base-model-mismatch error and no state change. -/
theorem peft_mismatch_rejected_witness :
    (register_peft_adapter "m" (fun _ => ⟨"LORA", some "x"⟩)
        ⟨"id", false, true, 1, [], 1⟩ ⟨[], 0⟩).1 = (⟨[], 0⟩ : RegState) ∧
    (register_peft_adapter "m" (fun _ => ⟨"LORA", some "x"⟩)
        ⟨"id", false, true, 1, [], 1⟩ ⟨[], 0⟩).2.isSome = true ∧
    ((⟨"id", false, true, 1, [], 1⟩ : LoraLinearConfig).peft_model_id.length ≠ 0 →
      ((fun _ => (⟨"LORA", some "x"⟩ : PeftConfig)) "id").peft_type = "LORA" →
      ∀ base, ((fun _ => (⟨"LORA", some "x"⟩ : PeftConfig)) "id").base_model_name_or_path =
        some base →
        (register_peft_adapter "m" (fun _ => ⟨"LORA", some "x"⟩)
          ⟨"id", false, true, 1, [], 1⟩ ⟨[], 0⟩).2 =
          some (PeftError.baseModelMismatch base)) :=
  peft_mismatch_rejected "m" (fun _ => ⟨"LORA", some "x"⟩)
    ⟨"id", false, true, 1, [], 1⟩ ⟨[], 0⟩ (Or.inl rfl) (by decide)

/- ## Falcon weight conversion (falcon.py, `FlexFlowFalcon.convert_hf_model`) -/

/-- `torch.split(params, sizes, 0)` on the rows (axis 0) of a tensor,
modelled as a list of rows: successive slices of the given sizes. -/
def torchSplitGo {α : Type} : List Nat → List α → List (List α)
  | [], _ => []
  | s :: rest, xs => xs.take s :: torchSplitGo rest (xs.drop s)

/-- `torch.split` rejects size lists that do not add up to the dimension
being split (`none` models the raised error). -/
def torchSplit {α : Type} (sizes : List Nat) (xs : List α) : Option (List (List α)) :=
  if sizes.sum = xs.length then some (torchSplitGo sizes xs) else none

/-- The split sizes `FlexFlowFalcon.convert_hf_model` passes for a fused
`self_attention.query_key_value` parameter:
`[hidden_size, hidden_size // n_head, hidden_size // n_head]`. -/
def falconQKVSplitSizes (hidden_size n_head : Nat) : List Nat :=
  [hidden_size, hidden_size / n_head, hidden_size / n_head]

/-- The Q/K/V sub-tensors written by `convert_hf_model` for a fused
query/key/value parameter, in file order `q_proj`, `k_proj`, `v_proj`. -/
def falconQKVSplit {α : Type} (hidden_size n_head : Nat) (params : List α) :
    Option (List (List α)) :=
  torchSplit (falconQKVSplitSizes hidden_size n_head) params

/-- Modelled from the spec: the split the claim describes — three equal
slices of width `H` from a fused tensor of width `3H`. -/
def claimedQKVSplit {α : Type} (h : Nat) (params : List α) : Option (List (List α)) :=
  torchSplit [h, h, h] params

/-- Claim C9 counterexample: with `hidden_size = 4` and `n_head = 2` the
code splits a fused tensor into widths `[4, 2, 2]`, not three equal widths;
on a fused tensor of width `3H = 12` the code's split sizes do not even sum
to the width, so the conversion fails where the claim predicts three
`H`-wide files, and on the width the code does accept (`8`) the written
pieces have unequal widths `4, 2, 2`. -/
theorem falcon_qkv_split_not_equal_thirds :
    falconQKVSplit 4 2 (List.range 12) = none ∧
    claimedQKVSplit 4 (List.range 12) =
      some [[0, 1, 2, 3], [4, 5, 6, 7], [8, 9, 10, 11]] ∧
    falconQKVSplit 4 2 (List.range 12) ≠ claimedQKVSplit 4 (List.range 12) ∧
    falconQKVSplit 4 2 (List.range 8) =
      some [[0, 1, 2, 3], [4, 5], [6, 7]] := by
  refine ⟨by decide, by decide, by decide, by decide⟩

/-- Claim C9 (amended): the conversion splits the fused query/key/value
parameter along axis 0 into sub-tensors of widths
`[hidden_size, hidden_size / n_head, hidden_size / n_head]` (three equal
widths only when `n_head = 1`); whenever those widths sum to the fused
tensor's width, the split succeeds and re-concatenating the three written
sub-tensors in Q, K, V order reproduces the original tensor exactly. -/
theorem falcon_qkv_split_roundtrip {α : Type} (hidden_size n_head : Nat)
    (params : List α)
    (hsum : hidden_size + hidden_size / n_head + hidden_size / n_head =
      params.length) :
    falconQKVSplit hidden_size n_head params =
      some [params.take hidden_size,
        (params.drop hidden_size).take (hidden_size / n_head),
        ((params.drop hidden_size).drop (hidden_size / n_head)).take (hidden_size / n_head)] ∧
    params.take hidden_size ++
      ((params.drop hidden_size).take (hidden_size / n_head) ++
        ((params.drop hidden_size).drop (hidden_size / n_head)).take (hidden_size / n_head)) =
      params := by
  constructor
  · unfold falconQKVSplit torchSplit falconQKVSplitSizes
    rw [if_pos (by simp; omega)]
    rfl
  · have hlast : ((params.drop hidden_size).drop (hidden_size / n_head)).take
        (hidden_size / n_head) =
        (params.drop hidden_size).drop (hidden_size / n_head) := by
      apply List.take_of_length_le
      simp
      omega
    rw [hlast, List.take_append_drop, List.take_append_drop]

/-- Witness for the amended C9: `hidden_size = 4`, `n_head = 1` (the equal-
thirds case), fused width `12`. -/
theorem falcon_qkv_split_roundtrip_witness :
    falconQKVSplit 4 1 (List.range 12) =
      some [(List.range 12).take 4,
        ((List.range 12).drop 4).take (4 / 1),
        (((List.range 12).drop 4).drop (4 / 1)).take (4 / 1)] ∧
    (List.range 12).take 4 ++
      (((List.range 12).drop 4).take (4 / 1) ++
        (((List.range 12).drop 4).drop (4 / 1)).take (4 / 1)) =
      List.range 12 :=
  falcon_qkv_split_roundtrip 4 1 (List.range 12) (by decide)
